import Mathlib

set_option maxRecDepth 100000

/-!
Shallow embedding of the configuration resolution and client bootstrap logic
of `internal/provider/provider.go` (the `Configure` method of `netboxProvider`).

The spec splits `Configure` into two components:
  * ConfigResolver (`resolve`): provider.go lines 45-140 — unknown-value
    guards, env fallback, presence validation, strip-flag resolution and
    trailing-slash normalization;
  * ClientBootstrapper (`bootstrap`): provider.go lines 142-195 — URL parsing,
    transport construction and authentication header.

Terraform framework values (`types.String`, `types.Bool`) are tri-state:
unknown, null, or a concrete value.  `os.Getenv` returns `""` for an unset
variable, so the environment is modelled as plain strings.
-/

/-- Tri-state string attribute value of the terraform plugin framework. -/
inductive TfString where
  | unknown : TfString
  | null : TfString
  | value : String → TfString
deriving DecidableEq

/-- `types.String.IsUnknown()`. -/
def TfString.IsUnknown : TfString → Bool
  | .unknown => true
  | _ => false

/-- `types.String.IsNull()`. -/
def TfString.IsNull : TfString → Bool
  | .null => true
  | _ => false

/-- `types.String.ValueString()`: the known value, `""` otherwise. -/
def TfString.ValueString : TfString → String
  | .value s => s
  | _ => ""

/-- Tri-state boolean attribute value of the terraform plugin framework. -/
inductive TfBool where
  | unknown : TfBool
  | null : TfBool
  | value : Bool → TfBool
deriving DecidableEq

/-- `types.Bool.IsUnknown()`. -/
def TfBool.IsUnknown : TfBool → Bool
  | .unknown => true
  | _ => false

/-- `types.Bool.IsNull()`. -/
def TfBool.IsNull : TfBool → Bool
  | .null => true
  | _ => false

/-- `types.Bool.ValueBool()`: the known value, `false` otherwise. -/
def TfBool.ValueBool : TfBool → Bool
  | .value b => b
  | _ => false

/-- The provider configuration model (`provider_netbox.NetboxModel`):
the RawConfig of the spec. -/
structure NetboxModel where
  ServerUrl : TfString
  ApiToken : TfString
  StripTrailingSlashesFromUrl : TfBool
deriving DecidableEq

/-- The process environment snapshot read by `Configure` via `os.Getenv`
(the EnvironmentOverrides of the spec); an unset variable is `""`. -/
structure Env where
  NETBOX_SERVER_URL : String
  NETBOX_API_TOKEN : String
  NETBOX_STRIP_TRAILING_SLASHES_FROM_URL : String
deriving DecidableEq

/-- Diagnostic severity (`diag.Severity`). -/
inductive DiagSeverity where
  | error : DiagSeverity
  | warning : DiagSeverity
deriving DecidableEq

/-- One entry of `resp.Diagnostics`: attribute path, severity, summary,
detail. -/
structure Diagnostic where
  severity : DiagSeverity
  attrPath : String
  summary : String
  detail : String
deriving DecidableEq

/-- `d` is an Error diagnostic. -/
def Diagnostic.isError (d : Diagnostic) : Bool :=
  decide (d.severity = DiagSeverity.error)

/-- `resp.Diagnostics.HasError()`. -/
def hasError (ds : List Diagnostic) : Bool :=
  ds.any Diagnostic.isError

/-- provider.go lines 45-52: unknown `server_url` error. -/
def unknownServerUrlDiag : Diagnostic :=
  { severity := .error
    attrPath := "server_url"
    summary := "Unknown NetBox Server URL"
    detail := "The provider cannot create the NetBox API client as there is an unknown configuration value for the NetBox Server URL. Either target apply the source of the value first, set the value statically in the configuration, or use the NETBOX_SERVER_URL environment variable." }

/-- provider.go lines 54-61: unknown `api_token` error. -/
def unknownApiTokenDiag : Diagnostic :=
  { severity := .error
    attrPath := "api_token"
    summary := "Unknown NetBox API Token"
    detail := "The provider cannot create the NetBox API client as there is an unknown configuration value for the NetBox API Token. Either target apply the source of the value first, set the value statically in the configuration, or use the NETBOX_API_TOKEN environment variable." }

/-- provider.go lines 63-68: unknown `strip_trailing_slashes_from_url` error. -/
def unknownStripDiag : Diagnostic :=
  { severity := .error
    attrPath := "strip_trailing_slashes_from_url"
    summary := "wip"
    detail := "wip" }

/-- provider.go lines 81-89: missing `server_url` error. -/
def missingServerUrlDiag : Diagnostic :=
  { severity := .error
    attrPath := "server_url"
    summary := "Missing NetBox Server URL"
    detail := "The provider cannot create the NetBox API client as there is a missing configuration value for the NetBox Server URL. Set the host value in the configuration or use the NETBOX_SERVER_URL environment variable. If either is already set, ensure the value is not empty." }

/-- provider.go lines 95-103: missing `api_token` error. -/
def missingApiTokenDiag : Diagnostic :=
  { severity := .error
    attrPath := "api_token"
    summary := "Missing NetBox API Token"
    detail := "The provider cannot create the NetBox API client as there is a missing configuration value for the NetBox API Token. Set the host value in the configuration or use the NETBOX_API_TOKEN environment variable. If either is already set, ensure the value is not empty." }

/-- provider.go lines 133-139: warning emitted after stripping trailing
slashes. -/
def stripWarningDiag : Diagnostic :=
  { severity := .warning
    attrPath := "strip_trailing_slashes_from_url"
    summary := "Stripped trailing slashes from the `server_url` parameter"
    detail := "Trailing slashes in the `server_url` parameter lead to problems in most setups, so all trailing slashes were stripped. Use the `strip_trailing_slashes_from_url` parameter to disable this feature or remove all trailing slashes in the `server_url` to disable this warning." }

/-- provider.go lines 45-68: the unknown-value guard pass, in source order. -/
def unknownDiags (config : NetboxModel) : List Diagnostic :=
  (if config.ServerUrl.IsUnknown then [unknownServerUrlDiag] else [])
    ++ (if config.ApiToken.IsUnknown then [unknownApiTokenDiag] else [])
    ++ (if config.StripTrailingSlashesFromUrl.IsUnknown then [unknownStripDiag] else [])

/-- provider.go lines 74-79 / 91-93: `x := os.Getenv(...)`, then
`if !field.IsNull() { x = field.ValueString() }`. -/
def selectString (field : TfString) (envVal : String) : String :=
  if field.IsNull then envVal else field.ValueString

/-- The `serverUrl` local after lines 74-79. -/
def selectedServerUrl (config : NetboxModel) (env : Env) : String :=
  selectString config.ServerUrl env.NETBOX_SERVER_URL

/-- The `apiToken` local after lines 91-93. -/
def selectedApiToken (config : NetboxModel) (env : Env) : String :=
  selectString config.ApiToken env.NETBOX_API_TOKEN

/-- provider.go lines 105-113: `stripTrailingSlashesFromUrl` defaults to
`true`, the env var is consulted with interpretation "false" vs anything else,
and a non-null config value overrides. -/
def selectedStrip (config : NetboxModel) (env : Env) : Bool :=
  if config.StripTrailingSlashesFromUrl.IsNull then
    (if env.NETBOX_STRIP_TRAILING_SLASHES_FROM_URL = "false" then false else true)
  else config.StripTrailingSlashesFromUrl.ValueBool

/-- provider.go lines 81-89 and 95-103: presence checks on the selected
values, in source order. -/
def missingDiags (config : NetboxModel) (env : Env) : List Diagnostic :=
  (if selectedServerUrl config env = "" then [missingServerUrlDiag] else [])
    ++ (if selectedApiToken config env = "" then [missingApiTokenDiag] else [])

/-- `strings.HasSuffix(s, "/")`. -/
def endsWithSlash (s : String) : Bool :=
  match s.data.getLast? with
  | some c => c == '/'
  | none => false

/-- `strings.TrimRight(s, "/")`: remove every trailing `/`. -/
def trimRightSlash (s : String) : String :=
  ⟨(s.data.reverse.dropWhile (fun c => c == '/')).reverse⟩

/-- provider.go lines 129-132: `for strings.HasSuffix(serverUrl, "/") {
serverUrl = strings.TrimRight(serverUrl, "/"); trimmed = true }`, with fuel
(each iteration strictly shrinks the string, so `s.length + 1` steps always
suffice). -/
def stripLoop : Nat → String → Bool → String × Bool
  | 0, s, trimmed => (s, trimmed)
  | fuel + 1, s, trimmed =>
    if endsWithSlash s then stripLoop fuel (trimRightSlash s) true
    else (s, trimmed)

/-- provider.go lines 125-132: the normalization block; returns the final
`serverUrl` and the `trimmed` flag. When stripping is disabled the url is
untouched and `trimmed` stays `false`. -/
def normalizeServerUrl (strip : Bool) (s : String) : String × Bool :=
  if strip then stripLoop (s.length + 1) s false else (s, false)

/-- The ResolvedConfig of the spec: the locals `serverUrl`, `apiToken`,
`stripTrailingSlashesFromUrl` as they stand after provider.go line 140. -/
structure ResolvedConfig where
  serverUrl : String
  apiToken : String
  stripTrailingSlashesFromUrl : Bool
deriving DecidableEq

/-- ConfigResolver (`resolve` of the spec): provider.go lines 45-140.
Diagnostics are accumulated in source order; the function returns early with
no `ResolvedConfig`
  * after the unknown-value guards when any of them fired (line 70), and
  * after the presence checks when any Error is present (line 115);
otherwise normalization runs, the warning is appended when anything was
trimmed, and the resolved values are produced. -/
def resolve (config : NetboxModel) (env : Env) : List Diagnostic × Option ResolvedConfig :=
  if hasError (unknownDiags config) then (unknownDiags config, none)
  else if hasError (unknownDiags config ++ missingDiags config env) then
    (unknownDiags config ++ missingDiags config env, none)
  else if (normalizeServerUrl (selectedStrip config env) (selectedServerUrl config env)).2 then
    (unknownDiags config ++ missingDiags config env ++ [stripWarningDiag],
      some { serverUrl := (normalizeServerUrl (selectedStrip config env) (selectedServerUrl config env)).1
             apiToken := selectedApiToken config env
             stripTrailingSlashesFromUrl := selectedStrip config env })
  else
    (unknownDiags config ++ missingDiags config env,
      some { serverUrl := (normalizeServerUrl (selectedStrip config env) (selectedServerUrl config env)).1
             apiToken := selectedApiToken config env
             stripTrailingSlashesFromUrl := selectedStrip config env })

/-- Result of `urlx.Parse` on success: scheme, host and path. -/
structure ParsedURL where
  Scheme : String
  Host : String
  Path : String
deriving DecidableEq

/-- `netboxclient.DefaultBasePath` of the go-netbox client library. -/
def DefaultBasePath : String := "/api"

/-- The transport state assembled by provider.go lines 163-193 (the
ClientHandle of the spec): accepted schemes, host, effective base path,
TLS options, the fixed timeout and the static authentication header
(`httptransport.APIKeyAuth("Authorization", "header", "Token <apiToken>")`). -/
structure ClientHandle where
  Host : String
  BasePath : String
  Schemes : List String
  InsecureSkipVerify : Bool
  TimeoutSeconds : Nat
  AuthHeaderName : String
  AuthHeaderLocation : String
  AuthHeaderValue : String
deriving DecidableEq

/-- Outcome of the bootstrap half of `Configure`.  `crashed` records a nil
pointer dereference (a Go panic). -/
structure BootstrapResult where
  diagnostics : List Diagnostic
  client : Option ClientHandle
  crashed : Bool
deriving DecidableEq

/-- ClientBootstrapper (`bootstrap` of the spec): provider.go lines 142-195,
parameterized by the external `urlx.Parse` (`none` = parse error).

Faithful to the source:
  * line 148 (`fmt.Errorf` on an empty token) and line 154 (`fmt.Errorf` on a
    parse error) construct an error value and discard it — neither adds a
    diagnostic nor returns, so `diagnostics` is always empty;
  * after a parse failure `parsedURL` is nil and line 157 dereferences it
    (`parsedURL.Scheme`), which panics — modelled as `crashed := true`;
  * `httptransport.TLSTransport` cannot fail on these options (it only errors
    when loading certificate files, and none are configured), so transport
    construction always succeeds with `InsecureSkipVerify` set at line 165. -/
def bootstrap (urlxParse : String → Option ParsedURL) (cfg : ResolvedConfig) :
    BootstrapResult :=
  match urlxParse cfg.serverUrl with
  | none => { diagnostics := [], client := none, crashed := true }
  | some parsedURL =>
    { diagnostics := []
      client := some
        { Host := parsedURL.Host
          BasePath := parsedURL.Path ++ DefaultBasePath
          Schemes := [parsedURL.Scheme]
          InsecureSkipVerify := true
          TimeoutSeconds := 10
          AuthHeaderName := "Authorization"
          AuthHeaderLocation := "header"
          AuthHeaderValue := "Token " ++ cfg.apiToken }
      crashed := false }

/-- The whole of `Configure` after the initial `req.Config.Get`: resolution,
then (only when resolution produced a `ResolvedConfig`) bootstrap. -/
def configure (urlxParse : String → Option ParsedURL) (config : NetboxModel)
    (env : Env) : List Diagnostic × Option BootstrapResult :=
  match resolve config env with
  | (diags, none) => (diags, none)
  | (diags, some cfg) => (diags, some (bootstrap urlxParse cfg))

/-- An environment with none of the three variables set. -/
def emptyEnv : Env :=
  { NETBOX_SERVER_URL := ""
    NETBOX_API_TOKEN := ""
    NETBOX_STRIP_TRAILING_SLASHES_FROM_URL := "" }

@[simp]
theorem unknownServerUrlDiag_isError : unknownServerUrlDiag.isError = true := rfl

@[simp]
theorem unknownApiTokenDiag_isError : unknownApiTokenDiag.isError = true := rfl

@[simp]
theorem unknownStripDiag_isError : unknownStripDiag.isError = true := rfl

@[simp]
theorem missingServerUrlDiag_isError : missingServerUrlDiag.isError = true := rfl

@[simp]
theorem missingApiTokenDiag_isError : missingApiTokenDiag.isError = true := rfl

@[simp]
theorem stripWarningDiag_isError : stripWarningDiag.isError = false := rfl

theorem hasError_append (l1 l2 : List Diagnostic) :
    hasError (l1 ++ l2) = (hasError l1 || hasError l2) := by
  simp [hasError]

/-- A member of an `if c then [x] else []` list is `x`. -/
theorem mem_ite_singleton {d x : Diagnostic} {c : Prop} [Decidable c]
    (h : d ∈ if c then [x] else []) : d = x := by
  split at h <;> simp_all

theorem mem_unknownDiags (config : NetboxModel) (d : Diagnostic)
    (h : d ∈ unknownDiags config) :
    d = unknownServerUrlDiag ∨ d = unknownApiTokenDiag ∨ d = unknownStripDiag := by
  unfold unknownDiags at h
  rcases List.mem_append.1 h with h' | h'
  · rcases List.mem_append.1 h' with h'' | h''
    · exact Or.inl (mem_ite_singleton h'')
    · exact Or.inr (Or.inl (mem_ite_singleton h''))
  · exact Or.inr (Or.inr (mem_ite_singleton h'))

theorem mem_missingDiags (config : NetboxModel) (env : Env) (d : Diagnostic)
    (h : d ∈ missingDiags config env) :
    d = missingServerUrlDiag ∨ d = missingApiTokenDiag := by
  unfold missingDiags at h
  rcases List.mem_append.1 h with h' | h'
  · exact Or.inl (mem_ite_singleton h')
  · exact Or.inr (mem_ite_singleton h')

theorem isError_of_mem_unknownDiags (config : NetboxModel) (d : Diagnostic)
    (h : d ∈ unknownDiags config) : d.isError = true := by
  rcases mem_unknownDiags config d h with h' | h' | h' <;> simp [h']

theorem isError_of_mem_missingDiags (config : NetboxModel) (env : Env) (d : Diagnostic)
    (h : d ∈ missingDiags config env) : d.isError = true := by
  rcases mem_missingDiags config env d h with h' | h' <;> simp [h']

theorem unknownDiags_eq_nil (config : NetboxModel)
    (h : hasError (unknownDiags config) = false) : unknownDiags config = [] := by
  rcases hd : unknownDiags config with _ | ⟨d, l⟩
  · rfl
  · exfalso
    have hmem : d ∈ unknownDiags config := by rw [hd]; exact List.mem_cons_self d l
    have herr := isError_of_mem_unknownDiags config d hmem
    rw [hd] at h
    simp [hasError, herr] at h

theorem resolve_of_unknown (config : NetboxModel) (env : Env)
    (h : hasError (unknownDiags config) = true) :
    resolve config env = (unknownDiags config, none) := by
  unfold resolve
  rw [if_pos h]

theorem resolve_of_missing (config : NetboxModel) (env : Env)
    (h0 : hasError (unknownDiags config) = false)
    (h1 : hasError (unknownDiags config ++ missingDiags config env) = true) :
    resolve config env = (unknownDiags config ++ missingDiags config env, none) := by
  unfold resolve
  rw [if_neg (by simp [h0]), if_pos h1]

theorem resolve_success (config : NetboxModel) (env : Env)
    (h0 : hasError (unknownDiags config) = false)
    (h1 : hasError (unknownDiags config ++ missingDiags config env) = false) :
    resolve config env
      = (unknownDiags config ++ missingDiags config env
          ++ (if (normalizeServerUrl (selectedStrip config env) (selectedServerUrl config env)).2 then [stripWarningDiag] else []),
         some ⟨(normalizeServerUrl (selectedStrip config env) (selectedServerUrl config env)).1,
               selectedApiToken config env, selectedStrip config env⟩) := by
  unfold resolve
  rw [if_neg (by simp [h0]), if_neg (by simp [h1])]
  by_cases h2 : (normalizeServerUrl (selectedStrip config env) (selectedServerUrl config env)).2 = true
  · rw [if_pos h2, if_pos h2]
  · rw [if_neg h2, if_neg h2]
    simp

theorem resolve_some_inv (config : NetboxModel) (env : Env) (r : ResolvedConfig)
    (h : (resolve config env).2 = some r) :
    hasError (unknownDiags config ++ missingDiags config env) = false
    ∧ r = ⟨(normalizeServerUrl (selectedStrip config env) (selectedServerUrl config env)).1,
           selectedApiToken config env, selectedStrip config env⟩ := by
  unfold resolve at h
  by_cases h0 : hasError (unknownDiags config) = true
  · rw [if_pos h0] at h
    simp at h
  · rw [if_neg h0] at h
    by_cases h1 : hasError (unknownDiags config ++ missingDiags config env) = true
    · rw [if_pos h1] at h
      simp at h
    · rw [if_neg h1] at h
      refine ⟨by simpa using h1, ?_⟩
      by_cases h2 : (normalizeServerUrl (selectedStrip config env) (selectedServerUrl config env)).2 = true
      · rw [if_pos h2] at h
        simpa using h.symm
      · rw [if_neg h2] at h
        simpa using h.symm

theorem selected_ne_empty_of_no_error (config : NetboxModel) (env : Env)
    (h : hasError (unknownDiags config ++ missingDiags config env) = false) :
    selectedServerUrl config env ≠ "" ∧ selectedApiToken config env ≠ "" := by
  rw [hasError_append] at h
  have hm : hasError (missingDiags config env) = false := by
    rcases Bool.or_eq_false_iff.1 h with ⟨_, hm⟩
    exact hm
  constructor
  · intro he
    have hmem : missingServerUrlDiag ∈ missingDiags config env := by
      unfold missingDiags
      rw [if_pos he]
      simp
    simp [hasError, List.any_eq_true] at hm
    exact absurd (hm missingServerUrlDiag hmem) (by simp)
  · intro he
    have hmem : missingApiTokenDiag ∈ missingDiags config env := by
      unfold missingDiags
      rw [if_pos he]
      simp
    simp [hasError, List.any_eq_true] at hm
    exact absurd (hm missingApiTokenDiag hmem) (by simp)

theorem resolve_env_congr (config : NetboxModel) (env env' : Env)
    (h1 : selectedServerUrl config env = selectedServerUrl config env')
    (h2 : selectedApiToken config env = selectedApiToken config env')
    (h3 : selectedStrip config env = selectedStrip config env') :
    resolve config env = resolve config env' := by
  unfold resolve missingDiags
  rw [h1, h2, h3]

theorem resolve_config_congr (c1 c2 : NetboxModel) (env : Env)
    (h0 : unknownDiags c1 = unknownDiags c2)
    (h1 : selectedServerUrl c1 env = selectedServerUrl c2 env)
    (h2 : selectedApiToken c1 env = selectedApiToken c2 env)
    (h3 : selectedStrip c1 env = selectedStrip c2 env) :
    resolve c1 env = resolve c2 env := by
  unfold resolve missingDiags
  rw [h0, h1, h2, h3]

theorem head_dropWhile_slash (l : List Char) (c : Char)
    (h : (l.dropWhile fun x => x == '/').head? = some c) : (c == '/') = false := by
  induction l with
  | nil => simp [List.dropWhile] at h
  | cons a t ih =>
    rw [List.dropWhile_cons] at h
    by_cases ha : (a == '/') = true
    · rw [if_pos ha] at h
      exact ih h
    · rw [if_neg ha] at h
      simp only [List.head?_cons, Option.some.injEq] at h
      subst h
      simpa using ha

theorem endsWithSlash_trimRightSlash (s : String) :
    endsWithSlash (trimRightSlash s) = false := by
  have hd : (trimRightSlash s).data = (s.data.reverse.dropWhile fun c => c == '/').reverse := rfl
  unfold endsWithSlash
  rw [hd, List.getLast?_reverse]
  cases h : (s.data.reverse.dropWhile fun c => c == '/').head? with
  | none => rfl
  | some c => exact head_dropWhile_slash _ c h

theorem stripLoop_not_ends (fuel : Nat) (s : String) (t : Bool)
    (h : endsWithSlash s = false) : stripLoop fuel s t = (s, t) := by
  cases fuel with
  | zero => rfl
  | succ f => simp [stripLoop, h]

theorem normalizeServerUrl_true (s : String) :
    normalizeServerUrl true s
      = if endsWithSlash s then (trimRightSlash s, true) else (s, false) := by
  unfold normalizeServerUrl
  rw [if_pos rfl]
  by_cases h : endsWithSlash s = true
  · rw [if_pos h]
    have hne : s.data ≠ [] := by
      intro hnil
      unfold endsWithSlash at h
      rw [hnil] at h
      simp at h
    have hlen : 1 ≤ s.length := List.length_pos.mpr hne
    obtain ⟨k, hk⟩ : ∃ k, s.length = k + 1 := ⟨s.length - 1, by omega⟩
    rw [hk]
    show stripLoop (k + 1 + 1) s false = (trimRightSlash s, true)
    rw [show stripLoop (k + 1 + 1) s false
        = if endsWithSlash s then stripLoop (k + 1) (trimRightSlash s) true else (s, false) from rfl]
    rw [if_pos h]
    exact stripLoop_not_ends (k + 1) _ true (endsWithSlash_trimRightSlash s)
  · have h' : endsWithSlash s = false := by simpa using h
    rw [if_neg (by simp [h'])]
    exact stripLoop_not_ends _ _ _ h'

theorem trimRightSlash_eq_empty (s : String)
    (h : trimRightSlash s = "") : ∀ c ∈ s.data, c = '/' := by
  have hdata : (s.data.reverse.dropWhile fun c => c == '/').reverse = [] :=
    congrArg String.data h
  rw [List.reverse_eq_nil_iff, List.dropWhile_eq_nil_iff] at hdata
  intro c hc
  have := hdata c (List.mem_reverse.2 hc)
  simpa using this

theorem hasError_of_mem_error {d : Diagnostic} {l : List Diagnostic}
    (hm : d ∈ l) (he : d.isError = true) : hasError l = true := by
  unfold hasError
  exact List.any_eq_true.mpr ⟨d, hm, he⟩

theorem missingServerUrlDiag_not_mem_unknownDiags (config : NetboxModel) :
    missingServerUrlDiag ∉ unknownDiags config := by
  intro h
  rcases mem_unknownDiags config _ h with h' | h' | h' <;> exact absurd h' (by decide)

theorem missingApiTokenDiag_not_mem_unknownDiags (config : NetboxModel) :
    missingApiTokenDiag ∉ unknownDiags config := by
  intro h
  rcases mem_unknownDiags config _ h with h' | h' | h' <;> exact absurd h' (by decide)

/-- Claim C2, counterexample: with `server_url` unknown and `api_token` absent
(and the api-token environment variable unset), `Configure` returns only the
unknown-server-url Error; the presence check on `api_token` never runs, so the
missing-api-token Error the claim requires is not in the result. -/
theorem resolve_unknown_skips_presence_checks_cex :
    resolve ⟨.unknown, .null, .value true⟩ emptyEnv = ([unknownServerUrlDiag], none)
    ∧ missingApiTokenDiag ∉ (resolve ⟨.unknown, .null, .value true⟩ emptyEnv).1 := by
  refine ⟨by decide, by decide⟩

/-- Claim C2 (amended): if any field is unknown at resolution time, `Configure`
emits an Error for each unknown field (the three unknown-value guards all run
and their diagnostics accumulate), but then returns immediately: the presence
checks on the other fields do not execute, so no missing-value diagnostic is
produced and no `ResolvedConfig` is returned. -/
theorem resolve_unknown_guard_returns_early (config : NetboxModel) (env : Env)
    (h : config.ServerUrl.IsUnknown = true ∨ config.ApiToken.IsUnknown = true
      ∨ config.StripTrailingSlashesFromUrl.IsUnknown = true) :
    resolve config env = (unknownDiags config, none)
    ∧ (config.ServerUrl.IsUnknown = true → unknownServerUrlDiag ∈ (resolve config env).1)
    ∧ (config.ApiToken.IsUnknown = true → unknownApiTokenDiag ∈ (resolve config env).1)
    ∧ (config.StripTrailingSlashesFromUrl.IsUnknown = true → unknownStripDiag ∈ (resolve config env).1)
    ∧ missingServerUrlDiag ∉ (resolve config env).1
    ∧ missingApiTokenDiag ∉ (resolve config env).1 := by
  have hasErr : hasError (unknownDiags config) = true := by
    rcases h with h' | h' | h'
    · exact hasError_of_mem_error (by simp [unknownDiags, h']) unknownServerUrlDiag_isError
    · exact hasError_of_mem_error (by simp [unknownDiags, h']) unknownApiTokenDiag_isError
    · exact hasError_of_mem_error (by simp [unknownDiags, h']) unknownStripDiag_isError
  have hres := resolve_of_unknown config env hasErr
  rw [hres]
  refine ⟨rfl, ?_, ?_, ?_, ?_, ?_⟩
  · intro h'
    simp [unknownDiags, h']
  · intro h'
    simp [unknownDiags, h']
  · intro h'
    simp [unknownDiags, h']
  · exact missingServerUrlDiag_not_mem_unknownDiags config
  · exact missingApiTokenDiag_not_mem_unknownDiags config

/-- Witness for C2's amended theorem: all three fields unknown. -/
theorem resolve_unknown_guard_returns_early_witness :
    resolve ⟨.unknown, .unknown, .unknown⟩ emptyEnv
      = (unknownDiags ⟨.unknown, .unknown, .unknown⟩, none)
    ∧ (TfString.IsUnknown .unknown = true
        → unknownServerUrlDiag ∈ (resolve ⟨.unknown, .unknown, .unknown⟩ emptyEnv).1)
    ∧ (TfString.IsUnknown .unknown = true
        → unknownApiTokenDiag ∈ (resolve ⟨.unknown, .unknown, .unknown⟩ emptyEnv).1)
    ∧ (TfBool.IsUnknown .unknown = true
        → unknownStripDiag ∈ (resolve ⟨.unknown, .unknown, .unknown⟩ emptyEnv).1)
    ∧ missingServerUrlDiag ∉ (resolve ⟨.unknown, .unknown, .unknown⟩ emptyEnv).1
    ∧ missingApiTokenDiag ∉ (resolve ⟨.unknown, .unknown, .unknown⟩ emptyEnv).1 :=
  resolve_unknown_guard_returns_early ⟨.unknown, .unknown, .unknown⟩ emptyEnv (Or.inl rfl)

/-- Claim C3: when the selected `server_url` and the selected `api_token` are
both empty (no unknown values in play), `Configure` reports the missing-server-
url Error and the missing-api-token Error together in one result and returns
no `ResolvedConfig`; it does not stop at the first. -/
theorem resolve_missing_both_accumulate (config : NetboxModel) (env : Env)
    (h1 : config.ServerUrl.IsUnknown = false) (h2 : config.ApiToken.IsUnknown = false)
    (h3 : config.StripTrailingSlashesFromUrl.IsUnknown = false)
    (h4 : selectedServerUrl config env = "") (h5 : selectedApiToken config env = "") :
    missingServerUrlDiag ∈ (resolve config env).1
    ∧ missingApiTokenDiag ∈ (resolve config env).1
    ∧ (resolve config env).2 = none := by
  have hu : unknownDiags config = [] := by
    simp [unknownDiags, h1, h2, h3]
  have hm : missingDiags config env = [missingServerUrlDiag, missingApiTokenDiag] := by
    unfold missingDiags
    rw [if_pos h4, if_pos h5]
    rfl
  have h0 : hasError (unknownDiags config) = false := by rw [hu]; rfl
  have h1' : hasError (unknownDiags config ++ missingDiags config env) = true := by
    rw [hu, hm]; decide
  rw [resolve_of_missing config env h0 h1', hu, hm]
  exact ⟨by simp, by simp, rfl⟩

/-- Witness for C3: everything absent and the environment empty. -/
theorem resolve_missing_both_accumulate_witness :
    missingServerUrlDiag ∈ (resolve ⟨.null, .null, .null⟩ emptyEnv).1
    ∧ missingApiTokenDiag ∈ (resolve ⟨.null, .null, .null⟩ emptyEnv).1
    ∧ (resolve ⟨.null, .null, .null⟩ emptyEnv).2 = none :=
  resolve_missing_both_accumulate ⟨.null, .null, .null⟩ emptyEnv rfl rfl rfl rfl rfl

/-- Claim C9, counterexample: `server_url = "https://host/"` with stripping
enabled and `api_token` missing: `Configure` returns only the missing-api-token
Error — the trailing-slash Warning is absent, because the error check at
provider.go line 115 returns before the normalization block at line 125. -/
theorem resolve_error_suppresses_warning_cex :
    resolve ⟨.value "https://host/", .null, .value true⟩ emptyEnv
      = ([missingApiTokenDiag], none)
    ∧ stripWarningDiag ∉ (resolve ⟨.value "https://host/", .null, .value true⟩ emptyEnv).1 := by
  refine ⟨by decide, by decide⟩

/-- Claim C9 (amended): the stop-and-return-on-Error step runs before
normalization, so whenever any Error is recorded `Configure` returns without a
`ResolvedConfig` and without the trailing-slash Warning: an Error and the
normalization Warning are never reported together. -/
theorem resolve_warning_only_without_error (config : NetboxModel) (env : Env)
    (h : hasError (resolve config env).1 = true) :
    stripWarningDiag ∉ (resolve config env).1 ∧ (resolve config env).2 = none := by
  by_cases h0 : hasError (unknownDiags config) = true
  · rw [resolve_of_unknown config env h0]
    refine ⟨?_, rfl⟩
    intro hmem
    have := isError_of_mem_unknownDiags config _ hmem
    simp at this
  · have h0' : hasError (unknownDiags config) = false := by simpa using h0
    by_cases h1 : hasError (unknownDiags config ++ missingDiags config env) = true
    · rw [resolve_of_missing config env h0' h1]
      refine ⟨?_, rfl⟩
      intro hmem
      rcases List.mem_append.1 hmem with hm | hm
      · have := isError_of_mem_unknownDiags config _ hm
        simp at this
      · have := isError_of_mem_missingDiags config env _ hm
        simp at this
    · exfalso
      have h1' : hasError (unknownDiags config ++ missingDiags config env) = false := by
        simpa using h1
      rw [resolve_success config env h0' h1'] at h
      rw [hasError_append, h1'] at h
      simp at h
      split at h
      · simp [hasError] at h
      · simp [hasError] at h

/-- Witness for C9's amended theorem: both required values missing. -/
theorem resolve_warning_only_without_error_witness :
    stripWarningDiag ∉ (resolve ⟨.null, .null, .value true⟩ emptyEnv).1
    ∧ (resolve ⟨.null, .null, .value true⟩ emptyEnv).2 = none :=
  resolve_warning_only_without_error ⟨.null, .null, .value true⟩ emptyEnv (by decide)

/-- Claim C5, counterexample: with the server-url environment variable set to
`"https://x"`, a configuration whose `server_url` is present but empty is NOT
treated like one where it is absent: the empty explicit value overrides the
environment value (provider.go line 77 checks only `IsNull`), so the first
resolves to a missing-server-url Error while the second succeeds. -/
theorem resolve_empty_vs_absent_cex :
    resolve ⟨.value "", .null, .value true⟩ ⟨"https://x", "t", ""⟩
      ≠ resolve ⟨.null, .null, .value true⟩ ⟨"https://x", "t", ""⟩ := by
  decide

/-- Claim C5 (amended): a present-but-empty `server_url` (resp. `api_token`)
is treated identically to an absent one only when the corresponding
environment variable is also empty; in that case both select the empty value
and both trigger the same missing-value Error. (When the environment variable
is non-empty, the explicit empty string overrides it, unlike absence.) -/
theorem resolve_empty_eq_absent_when_env_empty (config : NetboxModel) (env : Env) :
    (env.NETBOX_SERVER_URL = "" →
      resolve { config with ServerUrl := .value "" } env
        = resolve { config with ServerUrl := .null } env)
    ∧ (env.NETBOX_API_TOKEN = "" →
      resolve { config with ApiToken := .value "" } env
        = resolve { config with ApiToken := .null } env) := by
  constructor
  · intro he
    apply resolve_config_congr
    · simp [unknownDiags, TfString.IsUnknown]
    · simp [selectedServerUrl, selectString, TfString.IsNull, TfString.ValueString, he]
    · simp [selectedApiToken]
    · simp [selectedStrip]
  · intro he
    apply resolve_config_congr
    · simp [unknownDiags, TfString.IsUnknown]
    · simp [selectedServerUrl]
    · simp [selectedApiToken, selectString, TfString.IsNull, TfString.ValueString, he]
    · simp [selectedStrip]

/-- Witness for C5's amended theorem: empty environment. -/
theorem resolve_empty_eq_absent_when_env_empty_witness :
    resolve ⟨.value "", .null, .value true⟩ emptyEnv
      = resolve ⟨.null, .null, .value true⟩ emptyEnv
    ∧ resolve ⟨.null, .value "", .value true⟩ emptyEnv
      = resolve ⟨.null, .null, .value true⟩ emptyEnv :=
  ⟨(resolve_empty_eq_absent_when_env_empty ⟨.null, .null, .value true⟩ emptyEnv).1 rfl,
   (resolve_empty_eq_absent_when_env_empty ⟨.null, .null, .value true⟩ emptyEnv).2 rfl⟩

/-- Claim C6: a field explicitly set to a concrete value is used by the
resolver and the corresponding environment variable becomes irrelevant (the
whole `resolve` result is unchanged under any rewrite of that variable);
a field explicitly set to null falls through to its environment variable. -/
theorem resolve_explicit_wins_null_falls_through (config : NetboxModel) (env : Env)
    (u v : String) (b : Bool) :
    (config.ServerUrl = .value v → selectedServerUrl config env = v)
    ∧ (config.ServerUrl = .value v →
        resolve config env = resolve config { env with NETBOX_SERVER_URL := u })
    ∧ (config.ApiToken = .value v → selectedApiToken config env = v)
    ∧ (config.ApiToken = .value v →
        resolve config env = resolve config { env with NETBOX_API_TOKEN := u })
    ∧ (config.StripTrailingSlashesFromUrl = .value b → selectedStrip config env = b)
    ∧ (config.StripTrailingSlashesFromUrl = .value b →
        resolve config env
          = resolve config { env with NETBOX_STRIP_TRAILING_SLASHES_FROM_URL := u })
    ∧ (config.ServerUrl = .null → selectedServerUrl config env = env.NETBOX_SERVER_URL)
    ∧ (config.ApiToken = .null → selectedApiToken config env = env.NETBOX_API_TOKEN)
    ∧ (config.StripTrailingSlashesFromUrl = .null →
        selectedStrip config env
          = if env.NETBOX_STRIP_TRAILING_SLASHES_FROM_URL = "false" then false
            else true) := by
  refine ⟨?_, ?_, ?_, ?_, ?_, ?_, ?_, ?_, ?_⟩ <;> intro h
  · simp [selectedServerUrl, selectString, h, TfString.IsNull, TfString.ValueString]
  · apply resolve_env_congr <;>
      simp [selectedServerUrl, selectedApiToken, selectedStrip, selectString, h,
        TfString.IsNull, TfString.ValueString]
  · simp [selectedApiToken, selectString, h, TfString.IsNull, TfString.ValueString]
  · apply resolve_env_congr <;>
      simp [selectedServerUrl, selectedApiToken, selectedStrip, selectString, h,
        TfString.IsNull, TfString.ValueString]
  · simp [selectedStrip, h, TfBool.IsNull, TfBool.ValueBool]
  · apply resolve_env_congr <;>
      simp [selectedServerUrl, selectedApiToken, selectedStrip, selectString, h,
        TfBool.IsNull, TfBool.ValueBool]
  · simp [selectedServerUrl, selectString, h, TfString.IsNull]
  · simp [selectedApiToken, selectString, h, TfString.IsNull]
  · simp [selectedStrip, h, TfBool.IsNull]

/-- Witness for C6: explicit values in one instantiation, nulls with a
populated environment in a second. -/
theorem resolve_explicit_wins_null_falls_through_witness :
    selectedServerUrl ⟨.value "x", .value "x", .value true⟩ emptyEnv = "x"
    ∧ resolve ⟨.value "x", .value "x", .value true⟩ emptyEnv
        = resolve ⟨.value "x", .value "x", .value true⟩
            { emptyEnv with NETBOX_SERVER_URL := "zzz" }
    ∧ selectedApiToken ⟨.value "x", .value "x", .value true⟩ emptyEnv = "x"
    ∧ resolve ⟨.value "x", .value "x", .value true⟩ emptyEnv
        = resolve ⟨.value "x", .value "x", .value true⟩
            { emptyEnv with NETBOX_API_TOKEN := "zzz" }
    ∧ selectedStrip ⟨.value "x", .value "x", .value true⟩ emptyEnv = true
    ∧ resolve ⟨.value "x", .value "x", .value true⟩ emptyEnv
        = resolve ⟨.value "x", .value "x", .value true⟩
            { emptyEnv with NETBOX_STRIP_TRAILING_SLASHES_FROM_URL := "zzz" }
    ∧ selectedServerUrl ⟨.null, .null, .null⟩ ⟨"e1", "e2", "false"⟩
        = Env.NETBOX_SERVER_URL ⟨"e1", "e2", "false"⟩
    ∧ selectedApiToken ⟨.null, .null, .null⟩ ⟨"e1", "e2", "false"⟩
        = Env.NETBOX_API_TOKEN ⟨"e1", "e2", "false"⟩
    ∧ selectedStrip ⟨.null, .null, .null⟩ ⟨"e1", "e2", "false"⟩
        = (if Env.NETBOX_STRIP_TRAILING_SLASHES_FROM_URL ⟨"e1", "e2", "false"⟩ = "false"
            then false else true) :=
  ⟨(resolve_explicit_wins_null_falls_through ⟨.value "x", .value "x", .value true⟩
      emptyEnv "zzz" "x" true).1 rfl,
   (resolve_explicit_wins_null_falls_through ⟨.value "x", .value "x", .value true⟩
      emptyEnv "zzz" "x" true).2.1 rfl,
   (resolve_explicit_wins_null_falls_through ⟨.value "x", .value "x", .value true⟩
      emptyEnv "zzz" "x" true).2.2.1 rfl,
   (resolve_explicit_wins_null_falls_through ⟨.value "x", .value "x", .value true⟩
      emptyEnv "zzz" "x" true).2.2.2.1 rfl,
   (resolve_explicit_wins_null_falls_through ⟨.value "x", .value "x", .value true⟩
      emptyEnv "zzz" "x" true).2.2.2.2.1 rfl,
   (resolve_explicit_wins_null_falls_through ⟨.value "x", .value "x", .value true⟩
      emptyEnv "zzz" "x" true).2.2.2.2.2.1 rfl,
   (resolve_explicit_wins_null_falls_through ⟨.null, .null, .null⟩
      ⟨"e1", "e2", "false"⟩ "zzz" "x" true).2.2.2.2.2.2.1 rfl,
   (resolve_explicit_wins_null_falls_through ⟨.null, .null, .null⟩
      ⟨"e1", "e2", "false"⟩ "zzz" "x" true).2.2.2.2.2.2.2.1 rfl,
   (resolve_explicit_wins_null_falls_through ⟨.null, .null, .null⟩
      ⟨"e1", "e2", "false"⟩ "zzz" "x" true).2.2.2.2.2.2.2.2 rfl⟩

/-- Claim C4, counterexample: `server_url = "///"`, a valid token and stripping
enabled: `Configure` succeeds (no Error diagnostic) yet the resolved
`server_url` is the empty string — presence is validated before normalization,
so the claimed ResolvedConfig invariant does not hold. -/
theorem resolve_success_empty_serverUrl_cex :
    hasError (resolve ⟨.value "///", .value "t", .value true⟩ emptyEnv).1 = false
    ∧ (resolve ⟨.value "///", .value "t", .value true⟩ emptyEnv).2
        = some ⟨"", "t", true⟩ := by
  refine ⟨by decide, by decide⟩

/-- Claim C4 (amended): when `resolve` succeeds the returned `apiToken` is
non-empty, `stripTrailingSlashes` is the concretely selected boolean, and the
`server_url` selected before normalization is non-empty; the RETURNED
`serverUrl`, however, is never checked for URL well-formedness and can be
empty — precisely when stripping is enabled and the selected value consists
entirely of slashes (such as `"///"`). -/
theorem resolve_success_invariant (config : NetboxModel) (env : Env) (r : ResolvedConfig)
    (h : (resolve config env).2 = some r) :
    r.apiToken ≠ ""
    ∧ selectedServerUrl config env ≠ ""
    ∧ r.stripTrailingSlashesFromUrl = selectedStrip config env
    ∧ (r.serverUrl = "" →
        selectedStrip config env = true
        ∧ ∀ c ∈ (selectedServerUrl config env).data, c = '/') := by
  obtain ⟨hne, hr⟩ := resolve_some_inv config env r h
  obtain ⟨hsu, hat⟩ := selected_ne_empty_of_no_error config env hne
  subst hr
  refine ⟨hat, hsu, rfl, ?_⟩
  intro hempty
  cases hstrip : selectedStrip config env with
  | false =>
    exfalso
    rw [hstrip] at hempty
    simp [normalizeServerUrl] at hempty
    exact absurd hempty hsu
  | true =>
    rw [hstrip] at hempty
    rw [normalizeServerUrl_true] at hempty
    refine ⟨rfl, ?_⟩
    by_cases hew : endsWithSlash (selectedServerUrl config env) = true
    · rw [if_pos hew] at hempty
      exact trimRightSlash_eq_empty _ hempty
    · rw [if_neg hew] at hempty
      exact absurd hempty hsu

/-- Witness for C4's amended theorem: a clean successful resolution. -/
theorem resolve_success_invariant_witness :
    ResolvedConfig.apiToken ⟨"https://host", "t", true⟩ ≠ ""
    ∧ selectedServerUrl ⟨.value "https://host", .value "t", .value true⟩ emptyEnv ≠ ""
    ∧ ResolvedConfig.stripTrailingSlashesFromUrl ⟨"https://host", "t", true⟩
        = selectedStrip ⟨.value "https://host", .value "t", .value true⟩ emptyEnv
    ∧ (ResolvedConfig.serverUrl ⟨"https://host", "t", true⟩ = "" →
        selectedStrip ⟨.value "https://host", .value "t", .value true⟩ emptyEnv = true
        ∧ ∀ c ∈ (selectedServerUrl ⟨.value "https://host", .value "t", .value true⟩
            emptyEnv).data, c = '/') :=
  resolve_success_invariant ⟨.value "https://host", .value "t", .value true⟩ emptyEnv
    ⟨"https://host", "t", true⟩ (by decide)

/-- Claim C7: `server_url = "https://host///"` with stripping enabled and a
non-empty token resolves to exactly `"https://host"` with exactly one Warning
diagnostic, for every environment. -/
theorem resolve_strip_multiple_slashes (env : Env) (t : String) (ht : t ≠ "") :
    resolve ⟨.value "https://host///", .value t, .value true⟩ env
      = ([stripWarningDiag], some ⟨"https://host", t, true⟩) := by
  have h0 : hasError (unknownDiags ⟨.value "https://host///", .value t, .value true⟩)
      = false := rfl
  have hu : unknownDiags ⟨.value "https://host///", .value t, .value true⟩ = [] := rfl
  have hm : missingDiags ⟨.value "https://host///", .value t, .value true⟩ env = [] := by
    unfold missingDiags
    rw [if_neg (show ¬(selectedServerUrl ⟨.value "https://host///", .value t,
          .value true⟩ env = "") from fun hh =>
            absurd (show ("https://host///" : String) = "" from hh) (by decide)),
        if_neg (show ¬(selectedApiToken ⟨.value "https://host///", .value t,
          .value true⟩ env = "") from ht)]
    rfl
  have h1 : hasError (unknownDiags ⟨.value "https://host///", .value t, .value true⟩
      ++ missingDiags ⟨.value "https://host///", .value t, .value true⟩ env) = false := by
    rw [hm]
    rfl
  rw [resolve_success _ env h0 h1, hm, hu]
  have hn' : normalizeServerUrl true "https://host///" = ("https://host", true) := by
    decide
  rw [show normalizeServerUrl
      (selectedStrip ⟨.value "https://host///", .value t, .value true⟩ env)
      (selectedServerUrl ⟨.value "https://host///", .value t, .value true⟩ env)
      = ("https://host", true) from hn']
  simp [selectedApiToken, selectedStrip, selectString, TfString.IsNull,
    TfString.ValueString, TfBool.IsNull, TfBool.ValueBool]

/-- Witness for C7. -/
theorem resolve_strip_multiple_slashes_witness :
    resolve ⟨.value "https://host///", .value "t", .value true⟩ emptyEnv
      = ([stripWarningDiag], some ⟨"https://host", "t", true⟩) :=
  resolve_strip_multiple_slashes emptyEnv "t" (by decide)

/-- Claim C8: stripping trailing slashes from a url that does not end in `/`
is a no-op and emits no Warning — at the `resolve` level and at the level of
the normalization block itself — and normalization is idempotent: its output
never ends in `/`, so normalizing it again changes nothing and sets no
`trimmed` flag. -/
theorem resolve_normalization_idempotent (u t : String) (env : Env) :
    (endsWithSlash u = false → u ≠ "" → t ≠ "" →
      resolve ⟨.value u, .value t, .value true⟩ env = ([], some ⟨u, t, true⟩))
    ∧ (endsWithSlash u = false → normalizeServerUrl true u = (u, false))
    ∧ normalizeServerUrl true (normalizeServerUrl true u).1
        = ((normalizeServerUrl true u).1, false) := by
  have hnoop : ∀ s : String, endsWithSlash s = false
      → normalizeServerUrl true s = (s, false) := by
    intro s hs
    rw [normalizeServerUrl_true, if_neg (by simp [hs])]
  refine ⟨?_, hnoop u, ?_⟩
  · intro hu hne ht
    have h0 : hasError (unknownDiags ⟨.value u, .value t, .value true⟩) = false := rfl
    have hu2 : unknownDiags ⟨.value u, .value t, .value true⟩ = [] := rfl
    have hm : missingDiags ⟨.value u, .value t, .value true⟩ env = [] := by
      unfold missingDiags
      rw [if_neg (show ¬(selectedServerUrl ⟨.value u, .value t, .value true⟩ env = "")
            from hne),
          if_neg (show ¬(selectedApiToken ⟨.value u, .value t, .value true⟩ env = "")
            from ht)]
      rfl
    have h1 : hasError (unknownDiags ⟨.value u, .value t, .value true⟩
        ++ missingDiags ⟨.value u, .value t, .value true⟩ env) = false := by
      rw [hm]
      rfl
    rw [resolve_success _ env h0 h1, hm, hu2]
    rw [show normalizeServerUrl (selectedStrip ⟨.value u, .value t, .value true⟩ env)
        (selectedServerUrl ⟨.value u, .value t, .value true⟩ env) = (u, false)
      from hnoop u hu]
    simp [selectedApiToken, selectedStrip, selectString, TfString.IsNull,
      TfString.ValueString, TfBool.IsNull, TfBool.ValueBool]
  · cases hew : endsWithSlash u with
    | false =>
      rw [hnoop u hew]
      exact hnoop u hew
    | true =>
      rw [normalizeServerUrl_true u, if_pos hew]
      exact hnoop _ (endsWithSlash_trimRightSlash u)

/-- Witness for C8. -/
theorem resolve_normalization_idempotent_witness :
    resolve ⟨.value "https://host", .value "t", .value true⟩ emptyEnv
      = ([], some ⟨"https://host", "t", true⟩)
    ∧ normalizeServerUrl true "https://host" = ("https://host", false)
    ∧ normalizeServerUrl true (normalizeServerUrl true "https://host").1
        = ((normalizeServerUrl true "https://host").1, false) :=
  ⟨(resolve_normalization_idempotent "https://host" "t" emptyEnv).1
      (by decide) (by decide) (by decide),
   (resolve_normalization_idempotent "https://host" "t" emptyEnv).2.1 (by decide),
   (resolve_normalization_idempotent "https://host" "t" emptyEnv).2.2⟩

/-- Claim C1 (code divergence): when `urlx.Parse` fails on `cfg.serverUrl`,
`Configure` does NOT return a MalformedURL Error diagnostic: line 154 builds
an error value with `fmt.Errorf` and discards it, then line 157 dereferences
the nil parsed URL (`parsedURL.Scheme`), so the process panics instead of
returning the failure as a diagnostic. -/
theorem bootstrap_parse_failure_crashes (urlxParse : String → Option ParsedURL)
    (cfg : ResolvedConfig) (h : urlxParse cfg.serverUrl = none) :
    bootstrap urlxParse cfg
      = { diagnostics := [], client := none, crashed := true } := by
  unfold bootstrap
  rw [h]

/-- Witness for C1's divergence theorem: `serverUrl = "not a url"` (the space
makes `urlx.Parse` fail, since no scheme/host can be extracted). -/
theorem bootstrap_parse_failure_crashes_witness :
    bootstrap (fun _ => none) ⟨"not a url", "t", true⟩
      = { diagnostics := [], client := none, crashed := true } :=
  bootstrap_parse_failure_crashes (fun _ => none) ⟨"not a url", "t", true⟩ rfl

/-- Claim C10: every client handle `Configure` constructs has TLS certificate
verification disabled — `InsecureSkipVerify` is hardwired to `true` at
provider.go line 165 for every `ResolvedConfig` and every parse outcome; no
configuration field or environment variable is consulted. -/
theorem bootstrap_insecure_skip_verify_always (urlxParse : String → Option ParsedURL)
    (cfg : ResolvedConfig) (c : ClientHandle)
    (h : (bootstrap urlxParse cfg).client = some c) :
    c.InsecureSkipVerify = true := by
  unfold bootstrap at h
  cases hp : urlxParse cfg.serverUrl with
  | none =>
    rw [hp] at h
    simp at h
  | some p =>
    rw [hp] at h
    simp only [Option.some.injEq] at h
    subst h
    rfl

/-- Witness for C10: an https server URL. -/
theorem bootstrap_insecure_skip_verify_always_witness :
    ClientHandle.InsecureSkipVerify ⟨"host", "/api", ["https"], true, 10,
      "Authorization", "header", "Token t"⟩ = true :=
  bootstrap_insecure_skip_verify_always (fun _ => some ⟨"https", "host", ""⟩)
    ⟨"https://host", "t", true⟩
    ⟨"host", "/api", ["https"], true, 10, "Authorization", "header", "Token t"⟩
    (by decide)
